import Mathlib

/-!
Verification development for the kubefed cluster membership orchestration
(join/unjoin of a cluster in a federation control plane).

The repository source under scrutiny is the unjoin test suite
(`src/unnamed/part_000`, package `kubefed`): it pins down the exact output
messages, the fake federation endpoint (`/clusters/{name}`), and the fake host
endpoint (`/api/v1/namespaces/federation-system/secrets/{name}`).  The
orchestrator bodies themselves (`NewCmdUnjoin` / join) are not part of the
given sources, so they are modelled from the specification (sections 4.4, 4.5
and 7) and checked against the behaviour the test suite demands.
-/

/-- A federation membership record (the `Cluster` resource): `name` is the
unique key, `serverAddress` the member's API endpoint, `secretReference` the
name of the credential secret it points at. -/
structure ClusterMembership where
  name : String
  serverAddress : String
  secretReference : String
deriving DecidableEq, Repr

/-- Error taxonomy of the remote APIs (spec section 7): `notFound` carries the
resource kind and the requested name, as `errors.NewNotFound` does in the test
fakes; `conflict` is the already-exists error of the create paths; `transport`
and `unexpected` stand for the fatal, non-recoverable kinds. -/
inductive ApiError where
  | notFound (kind requested : String)
  | conflict (kind requested : String)
  | transport (msg : String)
  | unexpected (msg : String)
deriving DecidableEq, Repr

/-- Whether an error is the recoverable not-found kind. -/
def ApiError.isNotFound : ApiError → Bool
  | .notFound _ _ => true
  | _ => false

/-- A request issued by an orchestrator against one of the two remote APIs,
recorded by name of the target resource. -/
inductive Request where
  | getCluster (name : String)
  | deleteCluster (name : String)
  | deleteSecret (name : String)
  | createSecret (name : String)
  | createCluster (name : String)
deriving DecidableEq, Repr

/-- The URL prefix of the fake host secret endpoint, verbatim from
`fakeUnjoinHostFactory` in the test file. -/
def secretsPathBase : String := "/api/v1/namespaces/federation-system/secrets/"

/-- The URL prefix of the fake federation cluster endpoint, verbatim from
`testUnjoinFederationFactory` in the test file. -/
def clustersPathBase : String := "/clusters/"

/-- The URL path a request is issued under, following the two fake REST
factories of the test file: cluster operations live under `/clusters/`,
secret operations under the fixed `federation-system` namespace path. -/
def Request.path : Request → String
  | .getCluster n => clustersPathBase ++ n
  | .deleteCluster n => clustersPathBase ++ n
  | .deleteSecret n => secretsPathBase ++ n
  | .createSecret _ => "/api/v1/namespaces/federation-system/secrets"
  | .createCluster _ => "/clusters"

/-- Go `%q` quoting of a plain name. -/
def quoteStr (s : String) : String := "\"" ++ s ++ "\""

/-- Warning emitted when the membership record is absent, verbatim from the
test's expected output (`WARNING: cluster %q not found in federation, ...`). -/
def warnClusterNotFound (name : String) : String :=
  "WARNING: cluster " ++ quoteStr name ++
    " not found in federation, so its credentials' secret couldn't be deleted"

/-- Warning emitted when the credential secret is absent, verbatim from the
test's expected output (`WARNING: secret %q not found in the host cluster, ...`). -/
def warnSecretNotFound (name : String) : String :=
  "WARNING: secret " ++ quoteStr name ++
    " not found in the host cluster, so it couldn't be deleted"

/-- The single success line on stdout, verbatim from the test's expected
output (`Successfully removed cluster %q from federation`). -/
def successMessage (name : String) : String :=
  "Successfully removed cluster " ++ quoteStr name ++ " from federation"

/-- Client handles for the unjoin orchestrator: typed get/delete against the
federation control plane's cluster collection and delete against the host
cluster's secret collection, each a single synchronous call threading an
abstract remote state `σ` (spec sections 4.2 and 4.3). -/
structure Clients (σ : Type) where
  getCluster : String → σ → Except ApiError ClusterMembership × σ
  deleteCluster : String → σ → Except ApiError Unit × σ
  deleteSecret : String → σ → Except ApiError Unit × σ

/-- Everything a single unjoin (or join) invocation produces: the trace of
requests it issued, the stdout lines, the warning (diagnostic stream) lines,
and the fatal error, if any. -/
structure UnjoinResult where
  requests : List Request
  stdout : List String
  warnings : List String
  fatal : Option ApiError
deriving DecidableEq, Repr

/-- Modelled from the spec: step 3 of the Unjoin Orchestrator (section 4.5),
shared by both outcomes of step 2.  Deletes the credential secret under the
`secretReference` captured in step 1; a not-found outcome is downgraded to the
secret warning, success produces the single success line, any other error is
fatal (section 7). -/
def unjoinSecretStep {σ : Type} (cl : Clients σ) (clusterName secretName : String)
    (s2 : σ) : UnjoinResult × σ :=
  match cl.deleteSecret secretName s2 with
  | (.error e, s3) =>
    if e.isNotFound then
      ({ requests := [.getCluster clusterName, .deleteCluster clusterName,
                      .deleteSecret secretName],
         stdout := [], warnings := [warnSecretNotFound secretName],
         fatal := none }, s3)
    else
      ({ requests := [.getCluster clusterName, .deleteCluster clusterName,
                      .deleteSecret secretName],
         stdout := [], warnings := [], fatal := some e }, s3)
  | (.ok _, s3) =>
    ({ requests := [.getCluster clusterName, .deleteCluster clusterName,
                    .deleteSecret secretName],
       stdout := [successMessage clusterName], warnings := [], fatal := none }, s3)

/-- Modelled from the spec: the Unjoin Orchestrator (section 4.5); its body
(`NewCmdUnjoin`'s run path) is not among the given sources, only its test is.
Step 1 fetches the membership record: not-found is downgraded to the cluster
warning and the secret step is skipped; any other error is fatal.  Step 2
deletes the membership record: not-found is treated as success; any other
error is fatal.  Step 3 is `unjoinSecretStep`. -/
def unjoin {σ : Type} (cl : Clients σ) (clusterName : String) (s0 : σ) :
    UnjoinResult × σ :=
  match cl.getCluster clusterName s0 with
  | (.error e, s1) =>
    if e.isNotFound then
      ({ requests := [.getCluster clusterName], stdout := [],
         warnings := [warnClusterNotFound clusterName], fatal := none }, s1)
    else
      ({ requests := [.getCluster clusterName], stdout := [],
         warnings := [], fatal := some e }, s1)
  | (.ok membership, s1) =>
    match cl.deleteCluster clusterName s1 with
    | (.error e, s2) =>
      if e.isNotFound then
        unjoinSecretStep cl clusterName membership.secretReference s2
      else
        ({ requests := [.getCluster clusterName, .deleteCluster clusterName],
           stdout := [], warnings := [], fatal := some e }, s2)
    | (.ok _, s2) => unjoinSecretStep cl clusterName membership.secretReference s2

/-- HTTP methods the fake REST handlers distinguish. -/
inductive Method where
  | get
  | delete
  | post
deriving DecidableEq, Repr

/-- A fake REST handler's successful body: either a serialized cluster record
or a `Status: Success` object, as in the two factories of the test file. -/
inductive FakeResponse where
  | clusterBody (c : ClusterMembership)
  | successStatus
deriving DecidableEq, Repr

/-- `strings.HasPrefix` on the character sequence of a string. -/
def hasPre (pre s : String) : Bool := pre.data.isPrefixOf s.data

/-- `strings.TrimPrefix` specialised to the case where the prefix is known to
be present: drops the first `n` characters. -/
def dropChars (s : String) (n : Nat) : String := ⟨s.data.drop n⟩

/-- The cluster record served by `testUnjoinFederationFactory`: built by
`fakeCluster(name, name, server)` — so its secret reference defaults to the
cluster name — and overridden to `secret` when `secret` is non-empty
(`cluster.Spec.SecretRef.Name = secret`). -/
def testClusterRecord (name server secret : String) : ClusterMembership :=
  { name := name, serverAddress := server,
    secretReference := if secret == "" then name else secret }

/-- Embedding of the fake federation REST handler installed by
`testUnjoinFederationFactory`: under `/clusters/`, a request for any name
other than `name` is answered with a clusters not-found error carrying the
requested name; otherwise GET serves the cluster record and DELETE a success
status; anything else is an unexpected error. -/
def testFedHandler (name server secret : String) (path : String) (m : Method) :
    Except ApiError FakeResponse :=
  if hasPre clustersPathBase path then
    let got := dropChars path clustersPathBase.length
    if got != name then
      .error (.notFound "clusters" got)
    else
      match m with
      | .get => .ok (.clusterBody (testClusterRecord name server secret))
      | .delete => .ok .successStatus
      | _ => .error (.unexpected "unexpected method")
  else
    .error (.unexpected "unexpected request")

/-- Embedding of the fake host REST handler installed by
`fakeUnjoinHostFactory`: only DELETE under the fixed
`/api/v1/namespaces/federation-system/secrets/` path is served; a name other
than `name` is answered with a secrets not-found error carrying the requested
name, a matching name with a success status. -/
def fakeHostHandler (name : String) (path : String) (m : Method) :
    Except ApiError FakeResponse :=
  if hasPre secretsPathBase path && m == Method.delete then
    let got := dropChars path secretsPathBase.length
    if got != name then
      .error (.notFound "secrets" got)
    else
      .ok .successStatus
  else
    .error (.unexpected "unexpected request")

/-- The client handles the unjoin command sees in the test: each typed call is
served by the corresponding fake handler at the path the factories expect.
The fakes are stateless, so the remote state is `Unit`. -/
def testClients (name server secret hostSecret : String) : Clients Unit where
  getCluster := fun n _ =>
    (match testFedHandler name server secret (clustersPathBase ++ n) .get with
     | .ok (.clusterBody c) => .ok c
     | .ok .successStatus => .error (.unexpected "unexpected body")
     | .error e => .error e, ())
  deleteCluster := fun n _ =>
    (match testFedHandler name server secret (clustersPathBase ++ n) .delete with
     | .ok _ => .ok ()
     | .error e => .error e, ())
  deleteSecret := fun n _ =>
    (match fakeHostHandler hostSecret (secretsPathBase ++ n) .delete with
     | .ok _ => .ok ()
     | .error e => .error e, ())

/-- A concrete remote state: the federation control plane's membership records
and the names of the credential secrets present in the host cluster's system
namespace. -/
structure World where
  clusters : List ClusterMembership
  secrets : List String
deriving DecidableEq, Repr

/-- The membership record of a given name, if present. -/
def World.findCluster (w : World) (n : String) : Option ClusterMembership :=
  w.clusters.find? (fun c => c.name == n)

/-- Clients backed by a `World` state: get answers from the record list,
deletes remove the named record/secret and answer not-found when it is
absent. -/
def worldClients : Clients World where
  getCluster := fun n w =>
    match w.findCluster n with
    | some c => (.ok c, w)
    | none => (.error (.notFound "clusters" n), w)
  deleteCluster := fun n w =>
    if (w.findCluster n).isSome then
      (.ok (), { w with clusters := w.clusters.filter (fun c => c.name != n) })
    else
      (.error (.notFound "clusters" n), w)
  deleteSecret := fun n w =>
    if w.secrets.contains n then
      (.ok (), { w with secrets := w.secrets.filter (fun s => s != n) })
    else
      (.error (.notFound "secrets" n), w)

/-- A resolved context: the connection endpoint and the opaque credential
bundle for a named cluster (spec section 3, `ResolvedContext`). -/
structure ResolvedContext where
  serverAddress : String
  credentials : String
deriving DecidableEq, Repr

/-- A configuration source: named contexts mapping to resolved contexts. -/
structure ConfigSource where
  contexts : List (String × ResolvedContext)
deriving DecidableEq, Repr

/-- Resolver failure: the named context is absent from the selected source. -/
inductive ResolveError where
  | contextNotFound (name : String)
deriving DecidableEq, Repr

/-- The context of a given name in a source, if present. -/
def lookupContext (src : ConfigSource) (name : String) : Option ResolvedContext :=
  (src.contexts.find? (fun p => p.1 == name)).map (fun p => p.2)

/-- Modelled from the spec: source layering of the Credential Resolver
(section 4.1) — the resolver code is not among the given sources.  A supplied,
non-empty override source (`some o`) is consulted in place of the primary
source; otherwise the primary (global default) source is used. -/
def selectSource (primary : ConfigSource) (override : Option ConfigSource) :
    ConfigSource :=
  match override with
  | some o => o
  | none => primary

/-- Modelled from the spec: the Credential Resolver (section 4.1), a pure
lookup of the named context in the selected source, failing with
`contextNotFound` when the context is absent there. -/
def resolve (contextName : String) (primary : ConfigSource)
    (override : Option ConfigSource) : Except ResolveError ResolvedContext :=
  match lookupContext (selectSource primary override) contextName with
  | some rc => .ok rc
  | none => .error (.contextNotFound contextName)

/-- Join failure: either the resolver failed or one of the two create calls
did (spec section 7: any error on the join path is fatal). -/
inductive JoinError where
  | resolveFailed (e : ResolveError)
  | apiFailed (e : ApiError)
deriving DecidableEq, Repr

/-- Client handles for the join orchestrator: credential resolution plus the
two create calls (secret by name and credential bundle, membership record by
value), threading an abstract remote state `σ`. -/
structure JoinClients (σ : Type) where
  resolveCtx : String → Except ResolveError ResolvedContext
  createSecret : String → String → σ → Except ApiError Unit × σ
  createCluster : ClusterMembership → σ → Except ApiError Unit × σ

/-- What a join invocation produces: the trace of requests issued, the name
reported on success (spec section 4.4 step 4 reports success naming the
cluster), and the fatal error, if any. -/
structure JoinResult where
  requests : List Request
  success : Option String
  fatal : Option JoinError
deriving DecidableEq, Repr

/-- Modelled from the spec: the Join Orchestrator (section 4.4) — its body is
not among the given sources.  Resolve the context, create the credential
secret (named `secretName`, defaulting to `clusterName`), then create the
membership record referencing that secret; any failure aborts the whole
operation with that error, and a failure of the secret create happens before
any membership create request is issued. -/
def join {σ : Type} (cl : JoinClients σ) (clusterName contextName : String)
    (secretName : Option String) (s0 : σ) : JoinResult × σ :=
  match cl.resolveCtx contextName with
  | .error e =>
    ({ requests := [], success := none, fatal := some (.resolveFailed e) }, s0)
  | .ok rc =>
    let sName := secretName.getD clusterName
    match cl.createSecret sName rc.credentials s0 with
    | (.error e, s1) =>
      ({ requests := [.createSecret sName], success := none,
         fatal := some (.apiFailed e) }, s1)
    | (.ok _, s1) =>
      match cl.createCluster
          { name := clusterName, serverAddress := rc.serverAddress,
            secretReference := sName } s1 with
      | (.error e, s2) =>
        ({ requests := [.createSecret sName, .createCluster clusterName],
           success := none, fatal := some (.apiFailed e) }, s2)
      | (.ok _, s2) =>
        ({ requests := [.createSecret sName, .createCluster clusterName],
           success := some clusterName, fatal := none }, s2)

/-- The server address used by the fake kubeconfigs of the test's first
scenario. -/
def testServer : String := "https://10.20.30.40"

/-- The secret-deletion step always issues exactly the three-request trace:
get, membership delete, and a secret delete under the captured secret
reference. -/
theorem unjoinSecretStep_requests {σ : Type} (cl : Clients σ)
    (n sec : String) (s2 : σ) :
    (unjoinSecretStep cl n sec s2).1.requests
      = [Request.getCluster n, Request.deleteCluster n, Request.deleteSecret sec] := by
  unfold unjoinSecretStep
  rcases hsec : cl.deleteSecret sec s2 with ⟨es | u, s3⟩
  · dsimp only
    split
    · rfl
    · rfl
  · rfl

/-- Every unjoin invocation issues one of exactly three request traces: get
only, get then membership delete, or get, membership delete and a secret
delete under the secret reference of the fetched record. -/
theorem unjoin_requests_shape {σ : Type} (cl : Clients σ) (n : String) (s0 : σ) :
    (unjoin cl n s0).1.requests = [Request.getCluster n]
    ∨ (unjoin cl n s0).1.requests = [Request.getCluster n, Request.deleteCluster n]
    ∨ ∃ m s1, cl.getCluster n s0 = (Except.ok m, s1)
        ∧ (unjoin cl n s0).1.requests
            = [Request.getCluster n, Request.deleteCluster n,
               Request.deleteSecret m.secretReference] := by
  unfold unjoin
  rcases hget : cl.getCluster n s0 with ⟨eg | m, s1⟩
  · dsimp only
    split
    · exact Or.inl rfl
    · exact Or.inl rfl
  · dsimp only
    rcases hdel : cl.deleteCluster n s1 with ⟨ed | u, s2⟩
    · dsimp only
      split
      · exact Or.inr (Or.inr ⟨m, s1, rfl, unjoinSecretStep_requests cl n m.secretReference s2⟩)
      · exact Or.inr (Or.inl rfl)
    · exact Or.inr (Or.inr ⟨m, s1, rfl, unjoinSecretStep_requests cl n m.secretReference s2⟩)

/-- Reduction: a not-found answer at the membership fetch yields the cluster
warning result (no secret-delete request, no fatal error, empty stdout). -/
theorem unjoin_get_notFound_eq {σ : Type} (cl : Clients σ) (n k r : String)
    (s0 s1 : σ)
    (hget : cl.getCluster n s0 = (Except.error (ApiError.notFound k r), s1)) :
    unjoin cl n s0
      = ({ requests := [Request.getCluster n], stdout := [],
           warnings := [warnClusterNotFound n], fatal := none }, s1) := by
  unfold unjoin
  rw [hget]
  rfl

/-- Reduction: a successful membership fetch followed by a successful
membership delete continues with the secret step under the fetched record's
secret reference. -/
theorem unjoin_delete_ok_eq {σ : Type} (cl : Clients σ) (n : String)
    (m : ClusterMembership) (s0 s1 s2 : σ)
    (hget : cl.getCluster n s0 = (Except.ok m, s1))
    (hdel : cl.deleteCluster n s1 = (Except.ok (), s2)) :
    unjoin cl n s0 = unjoinSecretStep cl n m.secretReference s2 := by
  unfold unjoin
  rw [hget]
  dsimp only
  rw [hdel]

/-- Reduction: a successful membership fetch followed by a not-found answer at
the membership delete also continues with the secret step — the not-found is
treated exactly as a successful delete. -/
theorem unjoin_delete_notFound_eq {σ : Type} (cl : Clients σ) (n k r : String)
    (m : ClusterMembership) (s0 s1 s2 : σ)
    (hget : cl.getCluster n s0 = (Except.ok m, s1))
    (hdel : cl.deleteCluster n s1 = (Except.error (ApiError.notFound k r), s2)) :
    unjoin cl n s0 = unjoinSecretStep cl n m.secretReference s2 := by
  unfold unjoin
  rw [hget]
  dsimp only
  rw [hdel]
  rfl

/-- Reduction: a successful secret delete produces the single success line and
no warning. -/
theorem unjoinSecretStep_ok_eq {σ : Type} (cl : Clients σ) (n sec : String)
    (s2 s3 : σ)
    (hsec : cl.deleteSecret sec s2 = (Except.ok (), s3)) :
    unjoinSecretStep cl n sec s2
      = ({ requests := [Request.getCluster n, Request.deleteCluster n,
                        Request.deleteSecret sec],
           stdout := [successMessage n], warnings := [], fatal := none }, s3) := by
  unfold unjoinSecretStep
  rw [hsec]

/-- Reduction: a not-found answer at the secret delete produces the secret
warning, no success line and no fatal error. -/
theorem unjoinSecretStep_notFound_eq {σ : Type} (cl : Clients σ)
    (n sec k r : String) (s2 s3 : σ)
    (hsec : cl.deleteSecret sec s2 = (Except.error (ApiError.notFound k r), s3)) :
    unjoinSecretStep cl n sec s2
      = ({ requests := [Request.getCluster n, Request.deleteCluster n,
                        Request.deleteSecret sec],
           stdout := [], warnings := [warnSecretNotFound sec], fatal := none }, s3) := by
  unfold unjoinSecretStep
  rw [hsec]
  rfl

/-- The secret step either emits no warning or exactly the secret warning, and
its warnings and stdout are never both non-empty. -/
theorem unjoinSecretStep_output_cases {σ : Type} (cl : Clients σ)
    (n sec : String) (s2 : σ) :
    ((unjoinSecretStep cl n sec s2).1.warnings = []
        ∨ (unjoinSecretStep cl n sec s2).1.warnings = [warnSecretNotFound sec])
    ∧ ((unjoinSecretStep cl n sec s2).1.warnings = []
        ∨ (unjoinSecretStep cl n sec s2).1.stdout = []) := by
  unfold unjoinSecretStep
  rcases hsec : cl.deleteSecret sec s2 with ⟨es | u, s3⟩
  · dsimp only
    split
    · exact ⟨Or.inr rfl, Or.inr rfl⟩
    · exact ⟨Or.inl rfl, Or.inl rfl⟩
  · exact ⟨Or.inl rfl, Or.inl rfl⟩

/-- If the secret step fails fatally, the error is not a not-found error. -/
theorem unjoinSecretStep_fatal_not_notFound {σ : Type} (cl : Clients σ)
    (n sec : String) (s2 : σ) (e : ApiError)
    (hf : (unjoinSecretStep cl n sec s2).1.fatal = some e) :
    e.isNotFound = false := by
  unfold unjoinSecretStep at hf
  rcases hsec : cl.deleteSecret sec s2 with ⟨es | u, s3⟩ <;> rw [hsec] at hf
  · dsimp only at hf
    rcases h : es.isNotFound with _ | _
    · rw [h] at hf
      simp only [Bool.false_eq_true, if_false] at hf
      cases hf
      simpa using h
    · rw [h] at hf
      simp at hf
  · simp at hf

/-- After filtering out every record of a given name, a lookup of that name
finds nothing. -/
theorem findCluster_filter_ne (l : List ClusterMembership) (n : String) :
    (l.filter (fun c => c.name != n)).find? (fun c => c.name == n) = none := by
  induction l with
  | nil => rfl
  | cons a t ih =>
    by_cases h : a.name = n
    · simp only [List.filter_cons, h, bne_self_eq_false, Bool.false_eq_true,
        if_false]
      exact ih
    · have hb : (a.name != n) = true := by simpa [bne] using h
      simp only [List.filter_cons, hb, if_true, List.find?_cons]
      have hb2 : (a.name == n) = false := by simpa [beq_iff_eq] using h
      rw [hb2]
      exact ih

/-- The world-backed unjoin leaves no membership record of the unjoined name
behind: either it was absent already, or it was fetched and then removed. -/
theorem unjoin_world_removes_membership (n : String) (w : World) :
    ((unjoin worldClients n w).2).findCluster n = none := by
  rcases hw : w.findCluster n with _ | c
  · have hget : worldClients.getCluster n w
        = (Except.error (ApiError.notFound "clusters" n), w) := by
      unfold worldClients
      dsimp only
      rw [hw]
    rw [unjoin_get_notFound_eq worldClients n "clusters" n w w hget]
    exact hw
  · have hget : worldClients.getCluster n w = (Except.ok c, w) := by
      unfold worldClients
      dsimp only
      rw [hw]
    have hsome : (w.findCluster n).isSome = true := by rw [hw]; rfl
    have hdel : worldClients.deleteCluster n w
        = (Except.ok (), { w with clusters := w.clusters.filter (fun c => c.name != n) }) := by
      unfold worldClients
      dsimp only
      rw [hsome]
      rfl
    rw [unjoin_delete_ok_eq worldClients n c w w
      { w with clusters := w.clusters.filter (fun c => c.name != n) } hget hdel]
    set w2 : World := { w with clusters := w.clusters.filter (fun c => c.name != n) } with hw2
    have hclusters : ((unjoinSecretStep worldClients n c.secretReference w2).2).clusters
        = w2.clusters := by
      unfold unjoinSecretStep
      rcases hsec : worldClients.deleteSecret c.secretReference w2 with ⟨es | u, s3⟩
      · dsimp only
        have hs3 : s3.clusters = w2.clusters := by
          unfold worldClients at hsec
          dsimp only at hsec
          by_cases hc : w2.secrets.contains c.secretReference
          · rw [if_pos hc] at hsec
            cases hsec
          · rw [if_neg hc] at hsec
            cases hsec
            rfl
        split
        · exact hs3
        · exact hs3
      · have hs3 : s3.clusters = w2.clusters := by
          unfold worldClients at hsec
          dsimp only at hsec
          by_cases hc : w2.secrets.contains c.secretReference
          · rw [if_pos hc] at hsec
            cases hsec
            rfl
          · rw [if_neg hc] at hsec
            cases hsec
        exact hs3
    unfold World.findCluster
    rw [hclusters]
    exact findCluster_filter_ne w.clusters n

/-- Claim C1: for every unjoin whose fetched ClusterMembership has a
`secretReference` different from its name, every credential-secret delete the
orchestrator issues is under the `secretReference` name, one is issued
whenever the membership delete succeeds, and a secret delete under the
cluster name is never issued. -/
theorem unjoin_secret_name_independence {σ : Type} (cl : Clients σ)
    (n : String) (s0 : σ) (m : ClusterMembership) (s1 : σ)
    (hget : cl.getCluster n s0 = (Except.ok m, s1))
    (hne : m.secretReference ≠ n) :
    (∀ x, Request.deleteSecret x ∈ (unjoin cl n s0).1.requests →
        x = m.secretReference)
    ∧ Request.deleteSecret n ∉ (unjoin cl n s0).1.requests
    ∧ ∀ u s2, cl.deleteCluster n s1 = (Except.ok u, s2) →
        Request.deleteSecret m.secretReference ∈ (unjoin cl n s0).1.requests := by
  have hx : ∀ x, Request.deleteSecret x ∈ (unjoin cl n s0).1.requests →
      x = m.secretReference := by
    intro x hmem
    rcases unjoin_requests_shape cl n s0 with h | h | ⟨m2, s1', hget2, h⟩
    · rw [h] at hmem
      simp at hmem
    · rw [h] at hmem
      simp at hmem
    · rw [hget] at hget2
      simp only [Prod.mk.injEq, Except.ok.injEq] at hget2
      rw [h] at hmem
      simp at hmem
      rw [hget2.1]
      exact hmem
  refine ⟨hx, ?_, ?_⟩
  · intro hmem
    exact hne (hx n hmem).symm
  · intro u s2 hdel
    cases u
    rw [unjoin_delete_ok_eq cl n m s0 s1 s2 hget hdel, unjoinSecretStep_requests]
    simp

/-- Claim C2: for every unjoin whose membership fetch answers not-found, the
command does not fail, the diagnostic stream carries exactly the cluster
warning naming the requested cluster, stdout is empty, and no secret-delete
request is issued at all. -/
theorem unjoin_cluster_notFound_warns {σ : Type} (cl : Clients σ)
    (n k r : String) (s0 s1 : σ)
    (hget : cl.getCluster n s0 = (Except.error (ApiError.notFound k r), s1)) :
    (unjoin cl n s0).1.fatal = none
    ∧ (unjoin cl n s0).1.warnings = [warnClusterNotFound n]
    ∧ (unjoin cl n s0).1.stdout = []
    ∧ ∀ x, Request.deleteSecret x ∉ (unjoin cl n s0).1.requests := by
  rw [unjoin_get_notFound_eq cl n k r s0 s1 hget]
  refine ⟨rfl, rfl, rfl, ?_⟩
  intro x hx
  simp at hx

/-- Claim C3: for every unjoin whose membership record is fetched and deleted
but whose credential-secret delete under its `secretReference` answers
not-found, the command does not fail, the diagnostic stream carries exactly
the secret warning naming the missing secret, and no success line is
produced. -/
theorem unjoin_secret_notFound_warns {σ : Type} (cl : Clients σ)
    (n k r : String) (m : ClusterMembership) (s0 s1 s2 s3 : σ)
    (hget : cl.getCluster n s0 = (Except.ok m, s1))
    (hdel : cl.deleteCluster n s1 = (Except.ok (), s2))
    (hsec : cl.deleteSecret m.secretReference s2
        = (Except.error (ApiError.notFound k r), s3)) :
    (unjoin cl n s0).1.fatal = none
    ∧ (unjoin cl n s0).1.warnings = [warnSecretNotFound m.secretReference]
    ∧ (unjoin cl n s0).1.stdout = [] := by
  rw [unjoin_delete_ok_eq cl n m s0 s1 s2 hget hdel,
    unjoinSecretStep_notFound_eq cl n m.secretReference k r s2 s3 hsec]
  exact ⟨rfl, rfl, rfl⟩

/-- Claim C4: for every unjoin in which the membership fetch, the membership
delete and the secret delete all succeed, stdout carries exactly the single
success line naming the caller-supplied cluster, no warning is emitted, and
there is no fatal error. -/
theorem unjoin_success_output {σ : Type} (cl : Clients σ)
    (n : String) (m : ClusterMembership) (s0 s1 s2 s3 : σ)
    (hget : cl.getCluster n s0 = (Except.ok m, s1))
    (hdel : cl.deleteCluster n s1 = (Except.ok (), s2))
    (hsec : cl.deleteSecret m.secretReference s2 = (Except.ok (), s3)) :
    (unjoin cl n s0).1.stdout = [successMessage n]
    ∧ (unjoin cl n s0).1.warnings = []
    ∧ (unjoin cl n s0).1.fatal = none := by
  rw [unjoin_delete_ok_eq cl n m s0 s1 s2 hget hdel,
    unjoinSecretStep_ok_eq cl n m.secretReference s2 s3 hsec]
  exact ⟨rfl, rfl, rfl⟩

/-- Claim C5: for every unjoin invocation, warning output and success output
are mutually exclusive — at least one of the two streams is empty. -/
theorem unjoin_warning_success_exclusive {σ : Type} (cl : Clients σ)
    (n : String) (s0 : σ) :
    (unjoin cl n s0).1.warnings = [] ∨ (unjoin cl n s0).1.stdout = [] := by
  unfold unjoin
  rcases hget : cl.getCluster n s0 with ⟨eg | m, s1⟩
  · dsimp only
    split
    · exact Or.inr rfl
    · exact Or.inl rfl
  · dsimp only
    rcases hdel : cl.deleteCluster n s1 with ⟨ed | u, s2⟩
    · dsimp only
      split
      · exact (unjoinSecretStep_output_cases cl n m.secretReference s2).2
      · exact Or.inl rfl
    · exact (unjoinSecretStep_output_cases cl n m.secretReference s2).2

/-- A world without a membership record of the given name answers its fetch
with a clusters not-found error and leaves the world unchanged. -/
theorem worldClients_get_none (n : String) (w : World)
    (h : w.findCluster n = none) :
    worldClients.getCluster n w
      = (Except.error (ApiError.notFound "clusters" n), w) := by
  unfold worldClients
  dsimp only
  rw [h]

/-- Claim C6: unjoin is idempotent — after a completed unjoin of a cluster
name against the world-backed clients, a second unjoin of the same name never
fails, and its output is the cluster warning, not a success message. -/
theorem unjoin_idempotent (n : String) (w : World) :
    ((unjoin worldClients n ((unjoin worldClients n w).2)).1).fatal = none
    ∧ ((unjoin worldClients n ((unjoin worldClients n w).2)).1).warnings
        = [warnClusterNotFound n]
    ∧ ((unjoin worldClients n ((unjoin worldClients n w).2)).1).stdout = [] := by
  have habs := unjoin_world_removes_membership n w
  have hget := worldClients_get_none n _ habs
  rw [unjoin_get_notFound_eq worldClients n "clusters" n _ _ hget]
  exact ⟨rfl, rfl, rfl⟩

/-- Claim C7: credential resolution with a supplied override source looks the
context up in the override alone — the primary source is irrelevant — while
without an override the primary source is used; and resolution fails with
context-not-found exactly when the named context is absent from the selected
source. -/
theorem resolve_source_layering (c : String) (p ov : ConfigSource)
    (o : Option ConfigSource) :
    resolve c p (some ov) = resolve c ov none
    ∧ (resolve c p o = Except.error (ResolveError.contextNotFound c)
        ↔ lookupContext (selectSource p o) c = none) := by
  constructor
  · rfl
  · unfold resolve
    cases hx : lookupContext (selectSource p o) c
    · simp
    · simp

/-- Claim C8: when the membership record was found but its delete answers
not-found, the orchestrator behaves exactly as if the delete had succeeded —
it proceeds to the secret-delete step, any warning it emits is the secret
warning (none about the membership delete), and any fatal error it surfaces
is not a not-found error. -/
theorem unjoin_membership_delete_notFound_ok {σ : Type} (cl : Clients σ)
    (n k r : String) (m : ClusterMembership) (s0 s1 s2 : σ)
    (hget : cl.getCluster n s0 = (Except.ok m, s1))
    (hdel : cl.deleteCluster n s1 = (Except.error (ApiError.notFound k r), s2)) :
    unjoin cl n s0 = unjoinSecretStep cl n m.secretReference s2
    ∧ Request.deleteSecret m.secretReference ∈ (unjoin cl n s0).1.requests
    ∧ (∀ wrn, wrn ∈ (unjoin cl n s0).1.warnings →
        wrn = warnSecretNotFound m.secretReference)
    ∧ ∀ e, (unjoin cl n s0).1.fatal = some e → e.isNotFound = false := by
  have he := unjoin_delete_notFound_eq cl n k r m s0 s1 s2 hget hdel
  refine ⟨he, ?_, ?_, ?_⟩
  · rw [he, unjoinSecretStep_requests]
    simp
  · intro wrn hw
    rw [he] at hw
    rcases (unjoinSecretStep_output_cases cl n m.secretReference s2).1 with h | h
    · rw [h] at hw
      simp at hw
    · rw [h] at hw
      simpa using hw
  · intro e hf
    rw [he] at hf
    exact unjoinSecretStep_fatal_not_notFound cl n m.secretReference s2 e hf

/-- Claim C9: when the credential-secret create of a join fails, the whole
operation aborts with that error, the only request issued is the secret
create, and in particular no ClusterMembership create request is issued. -/
theorem join_aborts_on_secret_create_failure {σ : Type} (cl : JoinClients σ)
    (clusterName contextName : String) (secretName : Option String) (s0 : σ)
    (rc : ResolvedContext) (e : ApiError) (s1 : σ)
    (hres : cl.resolveCtx contextName = Except.ok rc)
    (hsec : cl.createSecret (secretName.getD clusterName) rc.credentials s0
        = (Except.error e, s1)) :
    (join cl clusterName contextName secretName s0).1.fatal
        = some (JoinError.apiFailed e)
    ∧ (join cl clusterName contextName secretName s0).1.requests
        = [Request.createSecret (secretName.getD clusterName)]
    ∧ ∀ x, Request.createCluster x
        ∉ (join cl clusterName contextName secretName s0).1.requests := by
  unfold join
  rw [hres]
  dsimp only
  rw [hsec]
  refine ⟨rfl, rfl, ?_⟩
  intro x hx
  simp at hx

/-- Claim C10: every credential-secret delete issued by unjoin is under the
secret reference of the fetched membership record, and targets the fixed
`federation-system` namespace path on the host cluster. -/
theorem unjoin_secret_delete_path {σ : Type} (cl : Clients σ) (n nm : String)
    (s0 : σ)
    (hmem : Request.deleteSecret nm ∈ (unjoin cl n s0).1.requests) :
    Request.path (Request.deleteSecret nm)
        = "/api/v1/namespaces/federation-system/secrets/" ++ nm
    ∧ ∃ m s1, cl.getCluster n s0 = (Except.ok m, s1)
        ∧ nm = m.secretReference := by
  refine ⟨rfl, ?_⟩
  rcases unjoin_requests_shape cl n s0 with h | h | ⟨m, s1, hget, h⟩
  · rw [h] at hmem
    simp at hmem
  · rw [h] at hmem
    simp at hmem
  · rw [h] at hmem
    simp at hmem
    exact ⟨m, s1, hget, hmem⟩

/-- Clients in which the membership delete is lost to a concurrent deletion:
the fetch still serves the record, but the delete answers not-found. -/
def raceClients : Clients Unit where
  getCluster := fun n _ =>
    (Except.ok { name := n, serverAddress := testServer, secretReference := n }, ())
  deleteCluster := fun n _ => (Except.error (ApiError.notFound "clusters" n), ())
  deleteSecret := fun _ _ => (Except.ok (), ())

/-- Join clients whose secret create always answers already-exists. -/
def conflictJoinClients : JoinClients Unit where
  resolveCtx := fun _ =>
    Except.ok { serverAddress := testServer, credentials := "creds" }
  createSecret := fun nm _ s => (Except.error (ApiError.conflict "secrets" nm), s)
  createCluster := fun _ s => (Except.ok (), s)

/-- Witness for claim C1 at the test's fifth scenario: the fetched record of
`affiliate` references secret `noexist`, and no delete under `affiliate` is
issued. -/
theorem unjoin_secret_name_independence_witness :
    (testClients "affiliate" testServer "noexist" "affiliate").getCluster
        "affiliate" ()
        = (Except.ok (testClusterRecord "affiliate" testServer "noexist"), ())
    ∧ (testClusterRecord "affiliate" testServer "noexist").secretReference
        ≠ "affiliate"
    ∧ Request.deleteSecret "affiliate"
        ∉ (unjoin (testClients "affiliate" testServer "noexist" "affiliate")
            "affiliate" ()).1.requests :=
  ⟨rfl, by decide,
    (unjoin_secret_name_independence
      (testClients "affiliate" testServer "noexist" "affiliate") "affiliate" ()
      (testClusterRecord "affiliate" testServer "noexist") () rfl (by decide)).2.1⟩

/-- Witness for claim C2 at the test's fourth scenario: unjoining `affiliate`
when the fake federation only knows `noexist` warns about `affiliate`. -/
theorem unjoin_cluster_notFound_warns_witness :
    (testClients "noexist" testServer "" "noexist").getCluster "affiliate" ()
        = (Except.error (ApiError.notFound "clusters" "affiliate"), ())
    ∧ (unjoin (testClients "noexist" testServer "" "noexist") "affiliate" ()).1.warnings
        = [warnClusterNotFound "affiliate"] :=
  ⟨rfl, (unjoin_cluster_notFound_warns (testClients "noexist" testServer "" "noexist")
      "affiliate" "clusters" "affiliate" () () rfl).2.1⟩

/-- Witness for claim C3 at the test's fifth scenario: the secret `noexist`
referenced by `affiliate` is absent from the host, so the secret warning is
emitted. -/
theorem unjoin_secret_notFound_warns_witness :
    (testClients "affiliate" testServer "noexist" "affiliate").deleteSecret
        (testClusterRecord "affiliate" testServer "noexist").secretReference ()
        = (Except.error (ApiError.notFound "secrets" "noexist"), ())
    ∧ (unjoin (testClients "affiliate" testServer "noexist" "affiliate")
        "affiliate" ()).1.warnings
        = [warnSecretNotFound
            (testClusterRecord "affiliate" testServer "noexist").secretReference] :=
  ⟨rfl, (unjoin_secret_notFound_warns
      (testClients "affiliate" testServer "noexist" "affiliate") "affiliate"
      "secrets" "noexist" (testClusterRecord "affiliate" testServer "noexist")
      () () () () rfl rfl rfl).2.1⟩

/-- Witness for claim C4 at the test's first scenario: unjoining `syndicate`
succeeds and prints exactly the success line. -/
theorem unjoin_success_output_witness :
    (testClients "syndicate" testServer "" "syndicate").getCluster "syndicate" ()
        = (Except.ok (testClusterRecord "syndicate" testServer ""), ())
    ∧ (unjoin (testClients "syndicate" testServer "" "syndicate")
        "syndicate" ()).1.stdout = [successMessage "syndicate"] :=
  ⟨rfl, (unjoin_success_output (testClients "syndicate" testServer "" "syndicate")
      "syndicate" (testClusterRecord "syndicate" testServer "") () () () ()
      rfl rfl rfl).1⟩

/-- Witness for claim C8: with a racing deletion of the membership record,
unjoin still issues the secret delete. -/
theorem unjoin_membership_delete_notFound_ok_witness :
    raceClients.deleteCluster "syndicate" ()
        = (Except.error (ApiError.notFound "clusters" "syndicate"), ())
    ∧ Request.deleteSecret "syndicate"
        ∈ (unjoin raceClients "syndicate" ()).1.requests :=
  ⟨rfl, (unjoin_membership_delete_notFound_ok raceClients "syndicate" "clusters"
      "syndicate" ⟨"syndicate", testServer, "syndicate"⟩ () () () rfl rfl).2.1⟩

/-- Witness for claim C9: joining `vassal` when the secret already exists
aborts with the conflict error and never issues a membership create. -/
theorem join_aborts_on_secret_create_failure_witness :
    conflictJoinClients.createSecret ((none : Option String).getD "vassal")
        "creds" () = (Except.error (ApiError.conflict "secrets" "vassal"), ())
    ∧ (join conflictJoinClients "vassal" "ctx" none ()).1.fatal
        = some (JoinError.apiFailed (ApiError.conflict "secrets" "vassal"))
    ∧ Request.createCluster "vassal"
        ∉ (join conflictJoinClients "vassal" "ctx" none ()).1.requests :=
  ⟨rfl, (join_aborts_on_secret_create_failure conflictJoinClients "vassal" "ctx"
      none () { serverAddress := testServer, credentials := "creds" }
      (ApiError.conflict "secrets" "vassal") () rfl rfl).1,
    (join_aborts_on_secret_create_failure conflictJoinClients "vassal" "ctx"
      none () { serverAddress := testServer, credentials := "creds" }
      (ApiError.conflict "secrets" "vassal") () rfl rfl).2.2 "vassal"⟩

/-- Witness for claim C10 at the test's fifth scenario: the delete of secret
`noexist` targets the fixed `federation-system` namespace path. -/
theorem unjoin_secret_delete_path_witness :
    Request.deleteSecret "noexist"
        ∈ (unjoin (testClients "affiliate" testServer "noexist" "affiliate")
            "affiliate" ()).1.requests
    ∧ Request.path (Request.deleteSecret "noexist")
        = "/api/v1/namespaces/federation-system/secrets/" ++ "noexist" :=
  ⟨by decide, (unjoin_secret_delete_path
      (testClients "affiliate" testServer "noexist" "affiliate") "affiliate"
      "noexist" () (by decide)).1⟩
